import Mathlib

/-!
Verification model of the device backend layer of the Thermal-Engine
repository (src/src/core/device_backends.py).

The Python module is shallowly embedded: each mutable backend object
becomes an explicit state record, the platform USB/HID layer (pyusb /
hidapi) becomes an explicit environment record describing which calls
succeed, and every Python method becomes a pure Lean function from the
environment and the pre-state to the returned value, the post-state and
the list of device writes the call attempted.
-/

namespace ThermalEngine

/-- Embeds the Python class `DeviceDefinition` (device_backends.py, lines
27-61).  The keyword-argument bag `extra_params` is only ever consulted
for the key `init_sequence` (HIDBackend.connect), so it is embedded as
the optional field `init_sequence`; the `endpoint_out`/`endpoint_in`
hints stored for the bulk device are `None` in the table and never read
back, so they are omitted.  Field defaults mirror the Python defaults
(`width=1280`, `height=480`, `experimental=False`). -/
structure DeviceDefinition where
  name : String
  vendor_id : Nat
  product_id : Nat
  backend_type : String
  width : Nat := 1280
  height : Nat := 480
  experimental : Bool := false
  init_sequence : Option (List Nat) := none
deriving DecidableEq

/-- Embeds the module-level table `SUPPORTED_DEVICES` (lines 65-91). -/
def SUPPORTED_DEVICES : List DeviceDefinition :=
  [ { name := "Thermalright Trofeo AIO"
    , vendor_id := 0x0416
    , product_id := 0x5302
    , backend_type := "hid"
    , experimental := false
    , init_sequence := some [0xDA, 0xDB, 0xDC, 0xDD, 0x00] }
  , { name := "Thermalright FW 360 Ultra"
    , vendor_id := 0x87AD
    , product_id := 0x70DB
    , backend_type := "usb_bulk"
    , width := 480
    , height := 480
    , experimental := false } ]

/-- Embeds `find_device_definition` (lines 94-99): a linear scan of
`SUPPORTED_DEVICES` returning the first entry whose vendor and product
ids both match, and `None` when no entry matches. -/
def find_device_definition (vendor_id product_id : Nat) : Option DeviceDefinition :=
  SUPPORTED_DEVICES.find? (fun d => d.vendor_id = vendor_id ∧ d.product_id = product_id)

/-- C7: `find_device_definition` is a pure linear scan of the fixed
table: any hit is a table entry matching the queried pair with all
fields unchanged, a miss happens exactly when no entry matches, every
registered identity is found back unchanged (table fidelity), and the
table holds the HID-transport entry at (0x0416, 0x5302) and the
bulk-transport entry at (0x87AD, 0x70DB) with a 480-by-480 panel. -/
theorem c7_registry_find :
    (∀ vid pid d, find_device_definition vid pid = some d →
      d ∈ SUPPORTED_DEVICES ∧ d.vendor_id = vid ∧ d.product_id = pid) ∧
    (∀ vid pid, find_device_definition vid pid = none ↔
      ∀ d ∈ SUPPORTED_DEVICES, ¬(d.vendor_id = vid ∧ d.product_id = pid)) ∧
    (∀ d ∈ SUPPORTED_DEVICES,
      find_device_definition d.vendor_id d.product_id = some d) ∧
    (∃ d, find_device_definition 0x0416 0x5302 = some d ∧
      d.backend_type = "hid") ∧
    (∃ d, find_device_definition 0x87AD 0x70DB = some d ∧
      d.backend_type = "usb_bulk" ∧ d.width = 480 ∧ d.height = 480) := by
  refine ⟨?_, ?_, ?_, ?_, ?_⟩
  · intro vid pid d h
    have hmem := List.mem_of_find?_eq_some h
    have hp := List.find?_some h
    simp only [decide_eq_true_eq] at hp
    exact ⟨hmem, hp.1, hp.2⟩
  · intro vid pid
    rw [find_device_definition, List.find?_eq_none]
    constructor
    · intro h d hd hdp
      have := h d hd
      simp only [decide_eq_true_eq] at this
      exact this hdp
    · intro h d hd
      simp only [decide_eq_true_eq]
      exact h d hd
  · intro d hd
    simp only [SUPPORTED_DEVICES, List.mem_cons, List.not_mem_nil, or_false] at hd
    rcases hd with h | h <;> subst h <;> rfl
  · exact ⟨_, rfl, rfl⟩
  · exact ⟨_, rfl, rfl, rfl, rfl⟩

/-- Closed instance of `c7_registry_find`: the bulk entry's lookup,
obtained by applying the theorem's table-fidelity part to the second
table row. -/
theorem c7_registry_find_witness :
    find_device_definition 0x87AD 0x70DB =
      some { name := "Thermalright FW 360 Ultra"
           , vendor_id := 0x87AD
           , product_id := 0x70DB
           , backend_type := "usb_bulk"
           , width := 480
           , height := 480
           , experimental := false } :=
  c7_registry_find.2.2.1
    { name := "Thermalright FW 360 Ultra"
    , vendor_id := 0x87AD
    , product_id := 0x70DB
    , backend_type := "usb_bulk"
    , width := 480
    , height := 480
    , experimental := false }
    (by simp [SUPPORTED_DEVICES])

/-! ## Endpoint model and the bulk backend's endpoint selection loop -/

/-- USB endpoint transfer types, as distinguished by
`usb.util.endpoint_type` in `_enumerate_endpoints` (lines 345-354). -/
inductive EndpointType
  | control
  | iso
  | bulk
  | interrupt
deriving DecidableEq

/-- A USB endpoint descriptor as consumed by `_enumerate_endpoints`:
its address byte `bEndpointAddress` and its transfer type. -/
structure Endpoint where
  addr : Nat
  ty : EndpointType
deriving DecidableEq

/-- Direction test of `_enumerate_endpoints` line 346: pyusb's
`endpoint_direction` masks bit 7 of the address (`ENDPOINT_IN = 0x80`),
so an endpoint is OUT exactly when bit 7 of its address is clear. -/
def epDirOut (e : Endpoint) : Bool :=
  !(e.addr.testBit 7)

/-- One iteration of the endpoint loop of `_enumerate_endpoints`
(lines 343-369) acting on the pair
(`self.endpoint_out`, `self.endpoint_in`): an OUT endpoint is stored
when no OUT endpoint is stored yet or when its type is bulk; an IN
endpoint is stored only when no IN endpoint is stored yet. -/
def enumStep (st : Option Nat × Option Nat) (e : Endpoint) :
    Option Nat × Option Nat :=
  let newOut :=
    if epDirOut e ∧ (st.1 = none ∨ e.ty = EndpointType.bulk) then some e.addr else st.1
  let newIn :=
    if ¬ epDirOut e ∧ st.2 = none then some e.addr else st.2
  (newOut, newIn)

/-- The whole endpoint loop of `_enumerate_endpoints`, over the
endpoints of all interfaces of the active configuration flattened in
enumeration order, starting from the current values of the
`endpoint_out` / `endpoint_in` fields. -/
def selectEndpoints (out0 in0 : Option Nat) (eps : List Endpoint) :
    Option Nat × Option Nat :=
  eps.foldl enumStep (out0, in0)

/-- Address of the first OUT endpoint of a list, any transfer type
(spec-side helper used to characterise `selectEndpoints`). -/
def firstOutAddr : List Endpoint → Option Nat
  | [] => none
  | e :: t => if epDirOut e then some e.addr else firstOutAddr t

/-- Address of the last bulk OUT endpoint of a list (spec-side helper
used to characterise `selectEndpoints`). -/
def lastBulkOutAddr : List Endpoint → Option Nat
  | [] => none
  | e :: t =>
    match lastBulkOutAddr t with
    | some a => some a
    | none => if epDirOut e ∧ e.ty = EndpointType.bulk then some e.addr else none

/-- Address of the first IN endpoint of a list (spec-side helper used
to characterise `selectEndpoints`). -/
def firstInAddr : List Endpoint → Option Nat
  | [] => none
  | e :: t => if ¬ epDirOut e then some e.addr else firstInAddr t

lemma selectEndpoints_nil (out0 in0 : Option Nat) :
    selectEndpoints out0 in0 [] = (out0, in0) := rfl

lemma selectEndpoints_cons (out0 in0 : Option Nat) (e : Endpoint) (t : List Endpoint) :
    selectEndpoints out0 in0 (e :: t) =
      selectEndpoints (enumStep (out0, in0) e).1 (enumStep (out0, in0) e).2 t := rfl

/-- Full characterisation of the endpoint selection loop: the OUT slot
ends at the LAST bulk OUT endpoint when one exists, otherwise keeps its
initial value, otherwise takes the first OUT endpoint of any type; the
IN slot keeps its initial value, otherwise takes the first IN
endpoint. -/
lemma selectEndpoints_eq (eps : List Endpoint) : ∀ out0 in0 : Option Nat,
    selectEndpoints out0 in0 eps =
      ((match lastBulkOutAddr eps with
        | some a => some a
        | none => match out0 with
          | some b => some b
          | none => firstOutAddr eps),
       (match in0 with
        | some b => some b
        | none => firstInAddr eps)) := by
  induction eps with
  | nil =>
    intro out0 in0
    cases out0 <;> cases in0 <;> rfl
  | cons e t ih =>
    intro out0 in0
    rw [selectEndpoints_cons, ih]
    by_cases hd : epDirOut e
    · by_cases hb : e.ty = EndpointType.bulk
      · cases out0 <;> cases in0 <;>
          simp [enumStep, hd, hb, lastBulkOutAddr, firstOutAddr, firstInAddr] <;>
          cases lastBulkOutAddr t <;> simp
      · cases out0 <;> cases in0 <;>
          simp [enumStep, hd, hb, lastBulkOutAddr, firstOutAddr, firstInAddr] <;>
          cases lastBulkOutAddr t <;> simp
    · cases out0 <;> cases in0 <;>
        simp [enumStep, hd, lastBulkOutAddr, firstOutAddr, firstInAddr] <;>
        cases lastBulkOutAddr t <;> simp

/-- C2 counterexample: an interface exposing two bulk OUT endpoints, at
addresses 0x01 then 0x02 in enumeration order.  The first bulk OUT
endpoint is 0x01, yet the loop selects 0x02: every later bulk OUT
endpoint overwrites the earlier choice, so the claim that the first
bulk OUT endpoint is selected is false. -/
theorem c2_endpoint_selection_counterexample :
    epDirOut { addr := 0x01, ty := EndpointType.bulk } = true ∧
    epDirOut { addr := 0x02, ty := EndpointType.bulk } = true ∧
    (selectEndpoints none none
      [ { addr := 0x01, ty := EndpointType.bulk }
      , { addr := 0x02, ty := EndpointType.bulk } ]).1 = some 0x02 ∧
    (selectEndpoints none none
      [ { addr := 0x01, ty := EndpointType.bulk }
      , { addr := 0x02, ty := EndpointType.bulk } ]).1 ≠ some 0x01 := by
  refine ⟨rfl, rfl, rfl, ?_⟩
  decide

/-- C2 amended: among OUT endpoints the loop keeps the LAST endpoint
whose transfer type is bulk; when no OUT endpoint is bulk it keeps the
first OUT endpoint seen of any type; among IN endpoints it keeps the
first one seen.  The claim's two concrete scenarios do hold: an
interrupt OUT endpoint followed by a bulk OUT endpoint selects the bulk
one, and a single OUT endpoint of any type is selected. -/
theorem c2_endpoint_selection :
    (∀ eps : List Endpoint,
      selectEndpoints none none eps =
        ((match lastBulkOutAddr eps with
          | some a => some a
          | none => firstOutAddr eps),
         firstInAddr eps)) ∧
    (∀ e1 e2 : Endpoint, epDirOut e1 = true → epDirOut e2 = true →
      e1.ty = EndpointType.interrupt → e2.ty = EndpointType.bulk →
      (selectEndpoints none none [e1, e2]).1 = some e2.addr) ∧
    (∀ e : Endpoint, epDirOut e = true →
      (selectEndpoints none none [e]).1 = some e.addr) := by
  refine ⟨?_, ?_, ?_⟩
  · intro eps
    rw [selectEndpoints_eq]
  · intro e1 e2 h1 h2 hty1 hty2
    rw [selectEndpoints_eq]
    simp [lastBulkOutAddr, h1, h2, hty1, hty2]
  · intro e h
    rw [selectEndpoints_eq]
    simp only [lastBulkOutAddr, firstOutAddr, h]
    by_cases hb : e.ty = EndpointType.bulk <;> simp [hb]

/-- Closed instance of `c2_endpoint_selection`: the claim's own
scenario, an interrupt OUT endpoint at 0x02 followed by a bulk OUT
endpoint at 0x01, selects the bulk endpoint 0x01. -/
theorem c2_endpoint_selection_witness :
    (selectEndpoints none none
      [ { addr := 0x02, ty := EndpointType.interrupt }
      , { addr := 0x01, ty := EndpointType.bulk } ]).1 = some 0x01 :=
  c2_endpoint_selection.2.1
    { addr := 0x02, ty := EndpointType.interrupt }
    { addr := 0x01, ty := EndpointType.bulk }
    (by decide) (by decide) rfl rfl

/-! ## Byte-level protocol buffers -/

/-- Python's `n.to_bytes(4, 'little')`: the four little-endian bytes of
`n` (for `n < 2^32`, which every use in the module satisfies). -/
def toBytesLE4 (n : Nat) : List Nat :=
  [n % 256, n / 256 % 256, n / 65536 % 256, n / 16777216 % 256]

/-- Python slice assignment `buf[off:off+len(vals)] = vals` on a list
of bytes (every use in the module stays inside the 64-byte buffer). -/
def setSlice (buf : List Nat) (off : Nat) (vals : List Nat) : List Nat :=
  buf.take off ++ vals ++ buf.drop (off + vals.length)

/-- Embeds the 64-byte initialization command built in
`_enumerate_endpoints` (lines 384-388): a zeroed `bytearray(64)` with
the magic `12 34 56 78` at offset 0, the little-endian INIT command
`0x00000000` at offset 4, and the little-endian flag `0x00000001` at
offset 56. -/
def initCmd : List Nat :=
  let c0 := List.replicate 64 0
  let c1 := setSlice c0 0 [0x12, 0x34, 0x56, 0x78]
  let c2 := setSlice c1 4 (toBytesLE4 0x00)
  setSlice c2 56 (toBytesLE4 0x01)

/-- Embeds the 64-byte frame header built in `USBBulkBackend.send_frame`
(lines 442-460): a zeroed `bytearray(64)` with the magic at offset 0,
the little-endian display command `0x00000002` at offsets 4 and 56, the
little-endian panel height at offsets 8 and 12, and the little-endian
payload length at offset 60. -/
def frameHeader (height payloadLen : Nat) : List Nat :=
  let h0 := List.replicate 64 0
  let h1 := setSlice h0 0 [0x12, 0x34, 0x56, 0x78]
  let h2 := setSlice h1 4 (toBytesLE4 0x02)
  let h3 := setSlice h2 8 (toBytesLE4 height)
  let h4 := setSlice h3 12 (toBytesLE4 height)
  let h5 := setSlice h4 56 (toBytesLE4 0x02)
  setSlice h5 60 (toBytesLE4 payloadLen)

lemma frameHeader_bytes (height payloadLen : Nat) :
    frameHeader height payloadLen =
      [0x12, 0x34, 0x56, 0x78, 0x02, 0, 0, 0] ++
      toBytesLE4 height ++ toBytesLE4 height ++
      List.replicate 40 0 ++
      ([0x02, 0, 0, 0] ++ toBytesLE4 payloadLen) := rfl

/-! ## The bulk-transfer backend (`USBBulkBackend`) -/

/-- Environment describing the platform USB layer (pyusb) for one
`USBBulkBackend` session: whether importing pyusb succeeds, whether
`usb.core.find` locates the device, the endpoints of the device's
active configuration (all interfaces flattened in enumeration order),
and which writes `device.write(addr, data)` the device accepts.  pyusb
raises `USBError` for a write whose endpoint argument does not resolve
to an endpoint address — in particular for `None`. -/
structure USBEnv where
  usbAvailable : Bool
  devicePresent : Bool
  endpoints : List Endpoint
  writeOk : Nat → List Nat → Bool

/-- Result of `self.device.write(ep, data, timeout)`: `false` means the
call raised.  A `None` endpoint never resolves, so the write raises
before reaching the device. -/
def usbWrite (env : USBEnv) (ep : Option Nat) (data : List Nat) : Bool :=
  match ep with
  | none => false
  | some a => env.writeOk a data

/-- Mutable state of a `USBBulkBackend` object: `self.device` (is the
handle set), `self.connected`, `self.endpoint_out`, `self.endpoint_in`
(lines 227-232). -/
structure USBState where
  hasDevice : Bool
  connected : Bool
  endpointOut : Option Nat
  endpointIn : Option Nat
deriving DecidableEq

/-- State of a freshly constructed `USBBulkBackend` (lines 109-111 and
227-232): no handle, not connected, endpoints unknown. -/
def usbInitState : USBState :=
  { hasDevice := false, connected := false, endpointOut := none, endpointIn := none }

/-- Embeds `USBBulkBackend.connect` (lines 240-298) together with the
`_enumerate_endpoints` helper it calls (lines 330-399).  Returns the
boolean result, the post-state and the list of `(endpoint, data)`
writes attempted.  Control flow of the source: an unavailable pyusb or
an absent device returns `False` early; otherwise the endpoint loop
updates `endpoint_out`/`endpoint_in`, then the 64-byte init command is
written to `self.endpoint_out` unconditionally — when that write raises
(which it always does if `endpoint_out` is `None`), the `raise` at line
399 propagates into connect's `except`, which sets `self.device = None`
and returns `False`; only when the init write succeeds does connect
reach `self.connected = True` and return `True`.  (Kernel-driver
detachment and `set_configuration` failures are non-fatal in the source
and are not modelled.) -/
def usbConnect (env : USBEnv) (st : USBState) :
    Bool × USBState × List (Option Nat × List Nat) :=
  if ¬ env.usbAvailable then (false, st, [])
  else if ¬ env.devicePresent then (false, { st with hasDevice := false }, [])
  else
    let sel := selectEndpoints st.endpointOut st.endpointIn env.endpoints
    let st1 : USBState :=
      { st with hasDevice := true, endpointOut := sel.1, endpointIn := sel.2 }
    if usbWrite env sel.1 initCmd then
      (true, { st1 with connected := true }, [(sel.1, initCmd)])
    else
      (false, { st1 with hasDevice := false }, [(sel.1, initCmd)])

/-- Embeds `USBBulkBackend.disconnect` (lines 401-414): when a handle
is held, `dispose_resources` is attempted and — whether or not it
raises (`releaseOk` is the outcome of that call) — the `finally` block
clears the handle, the connected flag and both endpoint fields; without
a handle the method does nothing.  The method never raises. -/
def usbDisconnect (releaseOk : Bool) (st : USBState) : USBState :=
  if st.hasDevice then
    { hasDevice := false, connected := false, endpointOut := none, endpointIn := none }
  else st

/-- Python truthiness of the `Optional[int]` field `endpoint_out`:
`not self.endpoint_out` is true both for `None` and for the integer 0
(endpoint address 0x00). -/
def optTruthy : Option Nat → Bool
  | none => false
  | some a => a ≠ 0

/-- Embeds `USBBulkBackend.send_frame` (lines 416-485): without a
handle or with a falsy OUT endpoint (`None`, or address 0, since the
guard at line 427 tests Python truthiness) it returns `False` at once
and performs no write; otherwise it builds the 64-byte header from the
device definition's height and the payload length, appends the payload
and issues exactly one bulk write; a `USBError` from that write (the
only failure the write can raise) sets `connected = False` and returns
`False`. -/
def usbSendFrame (env : USBEnv) (dev : DeviceDefinition) (st : USBState)
    (frame : List Nat) : Bool × USBState × List (Option Nat × List Nat) :=
  if ¬ st.hasDevice ∨ ¬ optTruthy st.endpointOut then (false, st, [])
  else
    let full := frameHeader dev.height frame.length ++ frame
    if usbWrite env st.endpointOut full then
      (true, st, [(st.endpointOut, full)])
    else
      (false, { st with connected := false }, [(st.endpointOut, full)])

/-- Embeds `USBBulkBackend.is_connected` (lines 487-497): `False`
without a handle; with a handle it reads `idVendor` from the device
and reports `True` exactly when that read does not raise (`alive` is
the outcome of that probe). -/
def usbIsConnected (alive : Bool) (st : USBState) : Bool :=
  st.hasDevice && alive

/-! ## The report-based backend (`HIDBackend`) -/

/-- Environment describing the platform HID layer (hidapi) for one
`HIDBackend` session: whether importing hid succeeds, whether opening
the device by vendor/product id succeeds, and which report writes the
device accepts (`false` means `device.write` raised). -/
structure HIDEnv where
  hidAvailable : Bool
  openOk : Bool
  writeOk : List Nat → Bool

/-- Mutable state of a `HIDBackend` object: `self.device` (is the
handle set) and `self.connected` (lines 109-111 and 142-145). -/
structure HIDState where
  hasDevice : Bool
  connected : Bool
deriving DecidableEq

/-- State of a freshly constructed `HIDBackend`. -/
def hidInitState : HIDState :=
  { hasDevice := false, connected := false }

/-- The 512-byte initialization buffer built in `HIDBackend.connect`
(lines 163-167): the init sequence copied into a zeroed buffer, and,
only when the sequence is longer than 4 bytes, byte 12 set to 0x01. -/
def hidInitBuffer (seq : List Nat) : List Nat :=
  let base := (List.range 512).map (fun i => (seq.getD i 0))
  if seq.length > 4 then base.set 12 0x01 else base

/-- Embeds `HIDBackend.connect` (lines 147-178): a missing hidapi
returns `False` with the state untouched; a failed open raises into the
`except`, clearing the handle; when the registry entry carries a
non-empty init sequence (Python's `if init_seq:` is false for `None`
and for an empty list) the 512-byte buffer prefixed with the report-id
byte 0x00 is written, a raising write clears the handle and returns
`False`; only after every step succeeds is `connected` set and `True`
returned.  The returned list holds the writes attempted. -/
def hidConnect (env : HIDEnv) (dev : DeviceDefinition) (st : HIDState) :
    Bool × HIDState × List (List Nat) :=
  if ¬ env.hidAvailable then (false, st, [])
  else if ¬ env.openOk then (false, { st with hasDevice := false }, [])
  else
    match dev.init_sequence with
    | none => (true, { hasDevice := true, connected := true }, [])
    | some seq =>
      if seq.isEmpty then (true, { hasDevice := true, connected := true }, [])
      else
        let buf := 0x00 :: hidInitBuffer seq
        if env.writeOk buf then (true, { hasDevice := true, connected := true }, [buf])
        else (false, { st with hasDevice := false }, [buf])

/-- Embeds `HIDBackend.disconnect` (lines 180-190): with a handle held,
`close()` is attempted and — raising or not (`closeOk` is its outcome)
— the `finally` block clears the handle and the connected flag; without
a handle the method does nothing.  The method never raises. -/
def hidDisconnect (closeOk : Bool) (st : HIDState) : HIDState :=
  if st.hasDevice then { hasDevice := false, connected := false } else st

/-- Embeds `HIDBackend.send_frame` (lines 192-204): without a handle it
returns `False` at once and performs no write; otherwise it writes the
frame prefixed with the report-id byte 0x00; a raising write sets
`connected = False` and returns `False`. -/
def hidSendFrame (env : HIDEnv) (st : HIDState) (frame : List Nat) :
    Bool × HIDState × List (List Nat) :=
  if ¬ st.hasDevice then (false, st, [])
  else if env.writeOk (0x00 :: frame) then (true, st, [0x00 :: frame])
  else (false, { st with connected := false }, [0x00 :: frame])

/-- Embeds `HIDBackend.is_connected` (lines 206-208):
`self.connected and self.device is not None`. -/
def hidIsConnected (st : HIDState) : Bool :=
  st.connected && st.hasDevice

/-! ## Frame-send protocol claims -/

/-- C1: whenever the bulk backend's `send_frame` reaches the device (a
handle is held and an OUT endpoint `ep` was resolved), it attempts
exactly one bulk write, to `ep`, whose buffer is a 64-byte header
followed by the payload verbatim, the header being byte-for-byte the
magic `12 34 56 78`, the little-endian command 2, the little-endian
panel height twice, forty zero bytes (offsets 16-55), the little-endian
command 2 again, and the little-endian payload length. -/
theorem c1_bulk_frame_layout (env : USBEnv) (dev : DeviceDefinition)
    (st : USBState) (frame : List Nat) (ep : Nat)
    (hdev : st.hasDevice = true) (hep : st.endpointOut = some ep) (hep0 : ep ≠ 0)
    (hh : dev.height < 4294967296) (hl : frame.length < 4294967296) :
    (usbSendFrame env dev st frame).2.2 =
      [(some ep,
        ([ 0x12, 0x34, 0x56, 0x78,
           0x02, 0, 0, 0,
           dev.height % 256, dev.height / 256 % 256,
           dev.height / 65536 % 256, dev.height / 16777216 % 256,
           dev.height % 256, dev.height / 256 % 256,
           dev.height / 65536 % 256, dev.height / 16777216 % 256 ] ++
         List.replicate 40 0 ++
         [ 0x02, 0, 0, 0,
           frame.length % 256, frame.length / 256 % 256,
           frame.length / 65536 % 256, frame.length / 16777216 % 256 ]) ++
        frame)] := by
  simp only [usbSendFrame, hdev, hep, usbWrite, frameHeader_bytes, toBytesLE4]
  split
  · simp_all [optTruthy]
  · split <;> simp

/-- Closed instance of `c1_bulk_frame_layout`: the bulk table device
(height 480) with a three-byte payload produces the single bulk write
with the documented header. -/
theorem c1_bulk_frame_layout_witness :
    (usbSendFrame
      { usbAvailable := true, devicePresent := true, endpoints := []
      , writeOk := fun _ _ => true }
      { name := "Thermalright FW 360 Ultra"
      , vendor_id := 0x87AD, product_id := 0x70DB
      , backend_type := "usb_bulk", width := 480, height := 480
      , experimental := false }
      { hasDevice := true, connected := true
      , endpointOut := some 0x01, endpointIn := some 0x81 }
      [0xAA, 0xBB, 0xCC]).2.2 =
      [(some 0x01,
        ([ 0x12, 0x34, 0x56, 0x78,
           0x02, 0, 0, 0,
           480 % 256, 480 / 256 % 256, 480 / 65536 % 256, 480 / 16777216 % 256,
           480 % 256, 480 / 256 % 256, 480 / 65536 % 256, 480 / 16777216 % 256 ] ++
         List.replicate 40 0 ++
         [ 0x02, 0, 0, 0, 3 % 256, 3 / 256 % 256, 3 / 65536 % 256, 3 / 16777216 % 256 ]) ++
        [0xAA, 0xBB, 0xCC])] :=
  c1_bulk_frame_layout
    { usbAvailable := true, devicePresent := true, endpoints := []
    , writeOk := fun _ _ => true }
    { name := "Thermalright FW 360 Ultra"
    , vendor_id := 0x87AD, product_id := 0x70DB
    , backend_type := "usb_bulk", width := 480, height := 480
    , experimental := false }
    { hasDevice := true, connected := true
    , endpointOut := some 0x01, endpointIn := some 0x81 }
    [0xAA, 0xBB, 0xCC] 0x01 rfl rfl (by decide) (by decide) (by decide)

/-- C6: the 64-byte handshake command written during the bulk connect
sequence carries the magic `12 34 56 78` at offsets 0-3, the
little-endian INIT command 0 at offsets 4-7, zeros at offsets 8-55 and
the little-endian flag 1 at offsets 56-59; when pyusb is available and
the device present, connect writes exactly this command to the OUT
endpoint the enumeration selected; and when that handshake write fails,
connect aborts with `False`. -/
theorem c6_init_command (env : USBEnv) (st : USBState)
    (havail : env.usbAvailable = true) (hpres : env.devicePresent = true) :
    initCmd.length = 64 ∧
    initCmd.take 4 = [0x12, 0x34, 0x56, 0x78] ∧
    (initCmd.drop 4).take 4 = [0, 0, 0, 0] ∧
    (∀ i < 56, 8 ≤ i → initCmd.getD i 0 = 0) ∧
    (initCmd.drop 56).take 4 = [0x01, 0, 0, 0] ∧
    (usbConnect env st).2.2 =
      [((selectEndpoints st.endpointOut st.endpointIn env.endpoints).1, initCmd)] ∧
    (usbWrite env
        (selectEndpoints st.endpointOut st.endpointIn env.endpoints).1 initCmd = false →
      (usbConnect env st).1 = false) := by
  refine ⟨by decide, by decide, by decide, by decide, by decide, ?_, ?_⟩
  · simp only [usbConnect, havail, hpres]
    by_cases hw : usbWrite env
        (selectEndpoints st.endpointOut st.endpointIn env.endpoints).1 initCmd <;>
      simp [hw]
  · intro hw
    simp [usbConnect, havail, hpres, hw]

/-- Closed instance of `c6_init_command`: a present device whose single
OUT endpoint 0x01 rejects every write makes connect fail. -/
theorem c6_init_command_witness :
    (usbConnect
      { usbAvailable := true, devicePresent := true
      , endpoints := [{ addr := 0x01, ty := EndpointType.bulk }]
      , writeOk := fun _ _ => false }
      usbInitState).1 = false :=
  (c6_init_command
    { usbAvailable := true, devicePresent := true
    , endpoints := [{ addr := 0x01, ty := EndpointType.bulk }]
    , writeOk := fun _ _ => false }
    usbInitState rfl rfl).2.2.2.2.2.2 rfl

/-! ## Connection-lifecycle claims -/

/-- C3: evaluation of the bulk connect sequence on a device exposing no
OUT endpoint (its only endpoint is the IN endpoint 0x81), with every
resolvable device write accepted.  The enumeration loop indeed selects
no OUT endpoint, but connect does NOT return success: the
initialization command at the end of `_enumerate_endpoints` is written
unconditionally to `self.endpoint_out = None`, pyusb raises on the
unresolvable endpoint, the `raise` at line 399 propagates, and connect
returns `False` with the handle cleared — the warn-and-continue branch
at lines 286-288 ("connect still succeeds but display output will not
work") is unreachable in this case.  A subsequent `send_frame` on the
resulting state does fail cleanly (`False`, no write, no crash). -/
theorem c3_connect_without_out_endpoint :
    (selectEndpoints none none [{ addr := 0x81, ty := EndpointType.bulk }]).1 = none ∧
    (usbConnect
      { usbAvailable := true, devicePresent := true
      , endpoints := [{ addr := 0x81, ty := EndpointType.bulk }]
      , writeOk := fun _ _ => true }
      usbInitState).1 = false ∧
    (usbConnect
      { usbAvailable := true, devicePresent := true
      , endpoints := [{ addr := 0x81, ty := EndpointType.bulk }]
      , writeOk := fun _ _ => true }
      usbInitState).2.1 =
      { hasDevice := false, connected := false
      , endpointOut := none, endpointIn := some 0x81 } ∧
    (usbSendFrame
      { usbAvailable := true, devicePresent := true
      , endpoints := [{ addr := 0x81, ty := EndpointType.bulk }]
      , writeOk := fun _ _ => true }
      { name := "Thermalright FW 360 Ultra"
      , vendor_id := 0x87AD, product_id := 0x70DB
      , backend_type := "usb_bulk", width := 480, height := 480
      , experimental := false }
      { hasDevice := false, connected := false
      , endpointOut := none, endpointIn := some 0x81 }
      [0xFF]) =
      (false,
       { hasDevice := false, connected := false
       , endpointOut := none, endpointIn := some 0x81 },
       []) :=
  ⟨rfl, rfl, rfl, rfl⟩

/-- C4: for both backend variants a failing device write during
`send_frame` returns `False` to the caller and clears the connected
flag; a failed connect from the initial state leaves the backend
disconnected; and neither variant retries — each `send_frame` call
attempts at most one device write, and a failing connect handshake is
attempted once (at most one write per connect as well). -/
theorem c4_failure_handling :
    (∀ (env : USBEnv) (dev : DeviceDefinition) (st : USBState) (frame : List Nat) (ep : Nat),
      st.hasDevice = true → st.endpointOut = some ep → ep ≠ 0 →
      env.writeOk ep (frameHeader dev.height frame.length ++ frame) = false →
      (usbSendFrame env dev st frame).1 = false ∧
      (usbSendFrame env dev st frame).2.1.connected = false) ∧
    (∀ (env : HIDEnv) (st : HIDState) (frame : List Nat),
      st.hasDevice = true → env.writeOk (0x00 :: frame) = false →
      (hidSendFrame env st frame).1 = false ∧
      (hidSendFrame env st frame).2.1.connected = false) ∧
    (∀ env : USBEnv, (usbConnect env usbInitState).1 = false →
      (usbConnect env usbInitState).2.1.connected = false ∧
      usbIsConnected true (usbConnect env usbInitState).2.1 = false) ∧
    (∀ (env : HIDEnv) (dev : DeviceDefinition),
      (hidConnect env dev hidInitState).1 = false →
      (hidConnect env dev hidInitState).2.1.connected = false ∧
      hidIsConnected (hidConnect env dev hidInitState).2.1 = false) ∧
    (∀ (env : USBEnv) (dev : DeviceDefinition) (st : USBState) (frame : List Nat),
      (usbSendFrame env dev st frame).2.2.length ≤ 1) ∧
    (∀ (env : HIDEnv) (st : HIDState) (frame : List Nat),
      (hidSendFrame env st frame).2.2.length ≤ 1) ∧
    (∀ env : USBEnv, (usbConnect env usbInitState).2.2.length ≤ 1) := by
  refine ⟨?_, ?_, ?_, ?_, ?_, ?_, ?_⟩
  · intro env dev st frame ep hdev hep hep0 hw
    simp only [usbSendFrame, hdev, hep, usbWrite]
    simp [optTruthy, hep0, hw]
  · intro env st frame hdev hw
    simp [hidSendFrame, hdev, hw]
  · intro env h
    simp only [usbConnect, usbInitState] at h ⊢
    split at h
    · simp_all [usbIsConnected]
    · split at h
      · simp_all [usbIsConnected]
      · split at h <;> simp_all [usbIsConnected]
  · intro env dev h
    simp only [hidConnect, hidInitState] at h ⊢
    split at h
    · simp_all [hidIsConnected]
    · split at h
      · simp_all [hidIsConnected]
      · split at h
        · simp_all
        · split at h
          · simp_all
          · split at h <;> simp_all [hidIsConnected]
  · intro env dev st frame
    simp only [usbSendFrame]
    split
    · simp
    · split <;> simp
  · intro env st frame
    simp only [hidSendFrame]
    split
    · simp
    · split <;> simp
  · intro env
    simp only [usbConnect]
    split
    · simp
    · split
      · simp
      · split <;> simp

/-- Closed instance of `c4_failure_handling`: the HID backend with a
device held and a rejecting device turns a failed frame write into a
`False` result and a cleared connected flag. -/
theorem c4_failure_handling_witness :
    (hidSendFrame
      { hidAvailable := true, openOk := true, writeOk := fun _ => false }
      { hasDevice := true, connected := true } [0x01]).1 = false ∧
    (hidSendFrame
      { hidAvailable := true, openOk := true, writeOk := fun _ => false }
      { hasDevice := true, connected := true } [0x01]).2.1.connected = false :=
  c4_failure_handling.2.1
    { hidAvailable := true, openOk := true, writeOk := fun _ => false }
    { hasDevice := true, connected := true } [0x01] rfl rfl

/-- C5 counterexample: the `send_frame` guards test only the device
handle (and, for bulk, the resolved OUT endpoint), never the connected
flag.  Starting from a live bulk session, a rejected write is detected
(the connected flag is cleared — the backend is now "disconnected"
in the claim's sense), yet the handle and endpoint survive, so the next
`send_frame` call performs a further device write and, the device
accepting it, even returns success — the claim's "fails without
performing a device write" is false after a detected failure. -/
theorem c5_counterexample :
    (usbSendFrame
      { usbAvailable := true, devicePresent := true, endpoints := []
      , writeOk := fun _ _ => false }
      { name := "Thermalright FW 360 Ultra"
      , vendor_id := 0x87AD, product_id := 0x70DB
      , backend_type := "usb_bulk", width := 480, height := 480
      , experimental := false }
      { hasDevice := true, connected := true
      , endpointOut := some 0x01, endpointIn := none }
      [0x07]).2.1 =
      { hasDevice := true, connected := false
      , endpointOut := some 0x01, endpointIn := none } ∧
    (usbSendFrame
      { usbAvailable := true, devicePresent := true, endpoints := []
      , writeOk := fun _ _ => true }
      { name := "Thermalright FW 360 Ultra"
      , vendor_id := 0x87AD, product_id := 0x70DB
      , backend_type := "usb_bulk", width := 480, height := 480
      , experimental := false }
      { hasDevice := true, connected := false
      , endpointOut := some 0x01, endpointIn := none }
      [0x07]).1 = true ∧
    (usbSendFrame
      { usbAvailable := true, devicePresent := true, endpoints := []
      , writeOk := fun _ _ => true }
      { name := "Thermalright FW 360 Ultra"
      , vendor_id := 0x87AD, product_id := 0x70DB
      , backend_type := "usb_bulk", width := 480, height := 480
      , experimental := false }
      { hasDevice := true, connected := false
      , endpointOut := some 0x01, endpointIn := none }
      [0x07]).2.2.length = 1 :=
  ⟨rfl, rfl, rfl⟩

/-- C5 amended: `send_frame` with no device handle — the state after
construction, after `disconnect`, or after a failed `connect` — and,
for the bulk backend, also with a falsy OUT endpoint (unresolved, or
address 0), returns `False` without raising and without attempting any
device write; a merely *detected* failure clears only the connected
flag, keeps the handle, and does not prevent further write attempts. -/
theorem c5_send_frame_disconnected :
    (∀ (env : USBEnv) (dev : DeviceDefinition) (st : USBState) (frame : List Nat),
      st.hasDevice = false → usbSendFrame env dev st frame = (false, st, [])) ∧
    (∀ (env : USBEnv) (dev : DeviceDefinition) (st : USBState) (frame : List Nat),
      optTruthy st.endpointOut = false → usbSendFrame env dev st frame = (false, st, [])) ∧
    (∀ (env : HIDEnv) (st : HIDState) (frame : List Nat),
      st.hasDevice = false → hidSendFrame env st frame = (false, st, [])) := by
  refine ⟨?_, ?_, ?_⟩
  · intro env dev st frame h
    simp [usbSendFrame, h]
  · intro env dev st frame h
    simp [usbSendFrame, h]
  · intro env st frame h
    simp [hidSendFrame, h]

/-- Closed instance of `c5_send_frame_disconnected`: a never-connected
bulk backend refuses a frame without writing. -/
theorem c5_send_frame_disconnected_witness :
    usbSendFrame
      { usbAvailable := true, devicePresent := true, endpoints := []
      , writeOk := fun _ _ => true }
      { name := "Thermalright FW 360 Ultra"
      , vendor_id := 0x87AD, product_id := 0x70DB
      , backend_type := "usb_bulk", width := 480, height := 480
      , experimental := false }
      usbInitState [0x07] = (false, usbInitState, []) :=
  c5_send_frame_disconnected.1
    { usbAvailable := true, devicePresent := true, endpoints := []
    , writeOk := fun _ _ => true }
    { name := "Thermalright FW 360 Ultra"
    , vendor_id := 0x87AD, product_id := 0x70DB
    , backend_type := "usb_bulk", width := 480, height := 480
    , experimental := false }
    usbInitState [0x07] rfl

/-- C8: for both variants `disconnect` is a total function of the state
(it never raises: close/dispose errors are swallowed by the
`try/except/finally`), calling it twice equals calling it once, after
any call `is_connected()` reports false whatever the liveness probe
says, and whenever a handle was held — including when releasing it
fails, since the `finally` block runs regardless — the connected flag
and (for the bulk variant) both endpoint fields are reset. -/
theorem c8_disconnect_idempotent :
    (∀ (r1 r2 : Bool) (st : USBState),
      usbDisconnect r2 (usbDisconnect r1 st) = usbDisconnect r1 st) ∧
    (∀ (r : Bool) (st : USBState) (alive : Bool),
      usbIsConnected alive (usbDisconnect r st) = false) ∧
    (∀ (r : Bool) (st : USBState), st.hasDevice = true →
      usbDisconnect r st =
        { hasDevice := false, connected := false
        , endpointOut := none, endpointIn := none }) ∧
    (∀ (c1 c2 : Bool) (st : HIDState),
      hidDisconnect c2 (hidDisconnect c1 st) = hidDisconnect c1 st) ∧
    (∀ (c : Bool) (st : HIDState), hidIsConnected (hidDisconnect c st) = false) ∧
    (∀ (c : Bool) (st : HIDState), st.hasDevice = true →
      hidDisconnect c st = { hasDevice := false, connected := false }) := by
  refine ⟨?_, ?_, ?_, ?_, ?_, ?_⟩
  · intro r1 r2 st
    by_cases h : st.hasDevice <;> simp [usbDisconnect, h]
  · intro r st alive
    by_cases h : st.hasDevice <;> simp [usbDisconnect, usbIsConnected, h]
  · intro r st h
    simp [usbDisconnect, h]
  · intro c1 c2 st
    by_cases h : st.hasDevice <;> simp [hidDisconnect, h]
  · intro c st
    by_cases h : st.hasDevice <;> simp [hidDisconnect, hidIsConnected, h]
  · intro c st h
    simp [hidDisconnect, h]

/-- Closed instance of `c8_disconnect_idempotent`: a connected bulk
state is fully reset even when the resource release fails. -/
theorem c8_disconnect_idempotent_witness :
    usbDisconnect false
      { hasDevice := true, connected := true
      , endpointOut := some 0x01, endpointIn := some 0x81 } =
      { hasDevice := false, connected := false
      , endpointOut := none, endpointIn := none } :=
  c8_disconnect_idempotent.2.2.1 false
    { hasDevice := true, connected := true
    , endpointOut := some 0x01, endpointIn := some 0x81 } rfl

/-! ## Device enumeration (`enumerate_available_devices`, lines 520-565) -/

/-- Environment for one `enumerate_available_devices` call: the HID
layer either fails entirely (`none`: hidapi missing, or `hid.enumerate`
raising — both swallowed by the source's `except` arms) or yields the
(vendor id, product id) pairs of the attached HID devices; the USB
layer either fails entirely (`none`) or tells for each queried pair
whether `usb.core.find` locates such a device. -/
structure EnumEnv where
  hidList : Option (List (Nat × Nat))
  usbFind : Option (Nat → Nat → Bool)

/-- One iteration of the HID loop (lines 533-540): look the attached
device's pair up in the registry and append the entry when it uses the
hid backend and is not already listed. -/
def hidScanStep (acc : List DeviceDefinition) (vp : Nat × Nat) :
    List DeviceDefinition :=
  match find_device_definition vp.1 vp.2 with
  | some d =>
    if d.backend_type = "hid" then (if d ∈ acc then acc else acc ++ [d]) else acc
  | none => acc

/-- One iteration of the USB loop (lines 550-559): for a registry entry
using the usb_bulk backend, probe the USB layer and append the entry
when the device is attached and not already listed. -/
def usbScanStep (f : Nat → Nat → Bool) (acc : List DeviceDefinition)
    (d : DeviceDefinition) : List DeviceDefinition :=
  if d.backend_type = "usb_bulk" then
    if f d.vendor_id d.product_id then (if d ∈ acc then acc else acc ++ [d]) else acc
  else acc

/-- Embeds `enumerate_available_devices` (lines 520-565): scan the HID
layer's device list against the registry, then probe the USB layer for
every usb_bulk registry entry; a failing platform layer contributes
nothing (its `except` arm only logs) and the other layer's results are
still returned. -/
def enumerate_available_devices (env : EnumEnv) : List DeviceDefinition :=
  let afterHid :=
    match env.hidList with
    | none => []
    | some l => l.foldl hidScanStep []
  match env.usbFind with
  | none => afterHid
  | some f => SUPPORTED_DEVICES.foldl (usbScanStep f) afterHid

lemma mem_hidScan (l : List (Nat × Nat)) :
    ∀ (acc : List DeviceDefinition) (x : DeviceDefinition),
      x ∈ l.foldl hidScanStep acc →
      x ∈ acc ∨ (x ∈ SUPPORTED_DEVICES ∧ x.backend_type = "hid" ∧
        (x.vendor_id, x.product_id) ∈ l) := by
  induction l with
  | nil => intro acc x hx; exact Or.inl hx
  | cons vp t ih =>
    intro acc x hx
    rw [List.foldl_cons] at hx
    rcases ih (hidScanStep acc vp) x hx with h | h
    · rcases hf : find_device_definition vp.1 vp.2 with _ | d
      · simp only [hidScanStep, hf] at h
        exact Or.inl h
      · simp only [hidScanStep, hf] at h
        have hd := List.mem_of_find?_eq_some hf
        have hp := List.find?_some hf
        simp only [decide_eq_true_eq] at hp
        by_cases hb : d.backend_type = "hid"
        · rw [if_pos hb] at h
          by_cases hmem : d ∈ acc
          · rw [if_pos hmem] at h
            exact Or.inl h
          · rw [if_neg hmem] at h
            rcases List.mem_append.mp h with h' | h'
            · exact Or.inl h'
            · have hxd : x = d := by simpa using h'
              subst hxd
              refine Or.inr ⟨hd, hb, ?_⟩
              rw [hp.1, hp.2]
              exact List.mem_cons_self _ _
        · rw [if_neg hb] at h
          exact Or.inl h
    · exact Or.inr ⟨h.1, h.2.1, List.mem_cons_of_mem _ h.2.2⟩

lemma mem_usbScan (f : Nat → Nat → Bool) (ds : List DeviceDefinition) :
    ∀ (acc : List DeviceDefinition) (x : DeviceDefinition),
      x ∈ ds.foldl (usbScanStep f) acc →
      x ∈ acc ∨ (x ∈ ds ∧ x.backend_type = "usb_bulk" ∧
        f x.vendor_id x.product_id = true) := by
  induction ds with
  | nil => intro acc x hx; exact Or.inl hx
  | cons d t ih =>
    intro acc x hx
    rw [List.foldl_cons] at hx
    rcases ih (usbScanStep f acc d) x hx with h | h
    · simp only [usbScanStep] at h
      by_cases hb : d.backend_type = "usb_bulk"
      · rw [if_pos hb] at h
        by_cases hfind : f d.vendor_id d.product_id
        · rw [if_pos hfind] at h
          by_cases hmem : d ∈ acc
          · rw [if_pos hmem] at h
            exact Or.inl h
          · rw [if_neg hmem] at h
            rcases List.mem_append.mp h with h' | h'
            · exact Or.inl h'
            · have hxd : x = d := by simpa using h'
              subst hxd
              exact Or.inr ⟨List.mem_cons_self _ _, hb, hfind⟩
        · rw [if_neg hfind] at h
          exact Or.inl h
      · rw [if_neg hb] at h
        exact Or.inl h
    · exact Or.inr ⟨List.mem_cons_of_mem _ h.1, h.2.1, h.2.2⟩

lemma nodup_append_singleton {α : Type} {l : List α} {x : α}
    (h : l.Nodup) (hx : x ∉ l) : (l ++ [x]).Nodup := by
  rw [List.nodup_append]
  refine ⟨h, List.nodup_singleton x, ?_⟩
  intro a ha hb
  have hax : a = x := by simpa using hb
  subst hax
  exact hx ha

lemma nodup_hidScan (l : List (Nat × Nat)) :
    ∀ acc : List DeviceDefinition, acc.Nodup → (l.foldl hidScanStep acc).Nodup := by
  induction l with
  | nil => intro acc h; exact h
  | cons vp t ih =>
    intro acc h
    rw [List.foldl_cons]
    refine ih _ ?_
    rcases hf : find_device_definition vp.1 vp.2 with _ | d
    · simp only [hidScanStep, hf]
      exact h
    · simp only [hidScanStep, hf]
      by_cases hb : d.backend_type = "hid"
      · rw [if_pos hb]
        by_cases hmem : d ∈ acc
        · rw [if_pos hmem]; exact h
        · rw [if_neg hmem]; exact nodup_append_singleton h hmem
      · rw [if_neg hb]; exact h

lemma nodup_usbScan (f : Nat → Nat → Bool) (ds : List DeviceDefinition) :
    ∀ acc : List DeviceDefinition, acc.Nodup → (ds.foldl (usbScanStep f) acc).Nodup := by
  induction ds with
  | nil => intro acc h; exact h
  | cons d t ih =>
    intro acc h
    rw [List.foldl_cons]
    refine ih _ ?_
    simp only [usbScanStep]
    by_cases hb : d.backend_type = "usb_bulk"
    · rw [if_pos hb]
      by_cases hfind : f d.vendor_id d.product_id
      · rw [if_pos hfind]
        by_cases hmem : d ∈ acc
        · rw [if_pos hmem]; exact h
        · rw [if_neg hmem]; exact nodup_append_singleton h hmem
      · rw [if_neg hfind]; exact h
    · rw [if_neg hb]; exact h

/-- C9: a failing platform layer degrades enumeration gracefully: with
the HID layer unavailable the result is exactly as if the HID layer had
reported no devices (the USB layer's findings are still returned), with
the USB layer unavailable the result is exactly as if the USB probe had
found nothing (the HID findings are still returned), and with both
unavailable the result is the empty list rather than a failure. -/
theorem c9_enumeration_degrades :
    (∀ u : Option (Nat → Nat → Bool),
      enumerate_available_devices { hidList := none, usbFind := u } =
      enumerate_available_devices { hidList := some [], usbFind := u }) ∧
    (∀ h : Option (List (Nat × Nat)),
      enumerate_available_devices { hidList := h, usbFind := none } =
      enumerate_available_devices { hidList := h, usbFind := some (fun _ _ => false) }) ∧
    enumerate_available_devices { hidList := none, usbFind := none } = [] := by
  refine ⟨?_, ?_, rfl⟩
  · intro u
    rfl
  · intro h
    simp only [enumerate_available_devices, SUPPORTED_DEVICES]
    rcases h with _ | l <;> rfl

/-- Closed instance of `c9_enumeration_degrades`: with hidapi missing
and the bulk table device attached, enumeration still reports the bulk
device. -/
theorem c9_enumeration_degrades_witness :
    enumerate_available_devices
      { hidList := none
      , usbFind := some (fun vid pid => vid = 0x87AD ∧ pid = 0x70DB) } =
    enumerate_available_devices
      { hidList := some []
      , usbFind := some (fun vid pid => vid = 0x87AD ∧ pid = 0x70DB) } :=
  c9_enumeration_degrades.1 (some (fun vid pid => vid = 0x87AD ∧ pid = 0x70DB))

/-- C10: every identity reported by `enumerate_available_devices` is an
entry of the fixed registry table, appears in the result at most once,
and was detected by the platform layer matching its transport kind: a
reported hid-backend entry's pair was in the HID layer's device list,
and a reported usb_bulk-backend entry was located by the USB layer's
probe. -/
theorem c10_enumeration_sound (env : EnumEnv) :
    (enumerate_available_devices env).Nodup ∧
    (∀ x ∈ enumerate_available_devices env,
      x ∈ SUPPORTED_DEVICES ∧
      (x.backend_type = "hid" →
        ∃ l, env.hidList = some l ∧ (x.vendor_id, x.product_id) ∈ l) ∧
      (x.backend_type = "usb_bulk" →
        ∃ f, env.usbFind = some f ∧ f x.vendor_id x.product_id = true)) := by
  have hidPart : ∀ x ∈ (match env.hidList with
      | none => []
      | some l => l.foldl hidScanStep []),
      x ∈ SUPPORTED_DEVICES ∧ x.backend_type = "hid" ∧
        ∃ l, env.hidList = some l ∧ (x.vendor_id, x.product_id) ∈ l := by
    rcases hh : env.hidList with _ | l
    · intro x hx; simp at hx
    · intro x hx
      rcases mem_hidScan l [] x hx with h | h
      · simp at h
      · exact ⟨h.1, h.2.1, l, rfl, h.2.2⟩
  have hidNodup : (match env.hidList with
      | none => []
      | some l => l.foldl hidScanStep []).Nodup := by
    rcases env.hidList with _ | l
    · exact List.nodup_nil
    · exact nodup_hidScan l [] List.nodup_nil
  constructor
  · simp only [enumerate_available_devices]
    rcases env.usbFind with _ | f
    · exact hidNodup
    · exact nodup_usbScan f SUPPORTED_DEVICES _ hidNodup
  · intro x hx
    simp only [enumerate_available_devices] at hx
    rcases hu : env.usbFind with _ | f
    · rw [hu] at hx
      obtain ⟨hmem, hb, hl⟩ := hidPart x hx
      refine ⟨hmem, fun _ => hl, fun hbulk => ?_⟩
      rw [hb] at hbulk
      exact absurd hbulk (by decide)
    · rw [hu] at hx
      rcases mem_usbScan f SUPPORTED_DEVICES _ x hx with h | h
      · obtain ⟨hmem, hb, hl⟩ := hidPart x h
        refine ⟨hmem, fun _ => hl, fun hbulk => ?_⟩
        rw [hb] at hbulk
        exact absurd hbulk (by decide)
      · refine ⟨h.1, fun hhid => ?_, fun _ => ⟨f, rfl, h.2.2⟩⟩
        rw [h.2.1] at hhid
        exact absurd hhid (by decide)

/-- Closed instance of `c10_enumeration_sound`: with both table devices
attached, the reported HID entry is the registry's Trofeo row, detected
through the HID layer. -/
theorem c10_enumeration_sound_witness :
    (enumerate_available_devices
      { hidList := some [(0x0416, 0x5302)]
      , usbFind := some (fun _ _ => true) }).Nodup ∧
    ∃ l, (some [((0x0416 : Nat), (0x5302 : Nat))] : Option (List (Nat × Nat))) = some l ∧
      ((0x0416 : Nat), (0x5302 : Nat)) ∈ l := by
  have h := c10_enumeration_sound
    { hidList := some [(0x0416, 0x5302)], usbFind := some (fun _ _ => true) }
  refine ⟨h.1, ?_⟩
  have hx : ({ name := "Thermalright Trofeo AIO"
             , vendor_id := 0x0416, product_id := 0x5302
             , backend_type := "hid", width := 1280, height := 480
             , experimental := false
             , init_sequence := some [0xDA, 0xDB, 0xDC, 0xDD, 0x00] } : DeviceDefinition) ∈
      enumerate_available_devices
        { hidList := some [(0x0416, 0x5302)], usbFind := some (fun _ _ => true) } := by
    decide
  exact (h.2 _ hx).2.1 rfl

end ThermalEngine
